import Mathlib

/-!
Shallow embedding of the chatbot repository (`src/app.py` and
`src/google_workspace_mcp.py`).

The intent parser in `app.py` is built on three compiled Python regular
expressions.  The pattern texts are *raw* strings containing doubled
backslashes, so `\\s` in the source denotes an escaped literal backslash
followed by the letter `s` (NOT a whitespace class).  We embed a small
backtracking regular-expression engine mirroring Python `re` semantics
(leftmost search, greedy/lazy repetition, ordered alternation, `$` matching
at end of text or before a final newline, IGNORECASE via lower-casing) and
transcribe the three patterns atom by atom.
-/

namespace Chatbot

/-- Character classes occurring in the three patterns.  All three patterns
are compiled with `re.IGNORECASE`, so membership is tested on lower-cased
characters.  `dot` is `.`, whose behaviour depends on `re.DOTALL`. -/
inductive CharCls where
  | single (c : Char)
  | notIn (cs : List Char)
  | inSet (cs : List Char)
  | dot (dotAll : Bool)
deriving Repr, DecidableEq

def clsMatch : CharCls → Char → Bool
  | .single c, t => t.toLower == c.toLower
  | .notIn cs, t => !(cs.any fun c => t.toLower == c.toLower)
  | .inSet cs, t => cs.any fun c => t.toLower == c.toLower
  | .dot all, t => all || t != '\n'

/-- Regular expression syntax needed for the three patterns.  Repetition
(`+`) only ever applies to a single character class in these patterns, so
`plus` is restricted to a class; `lzy = true` gives the lazy variant
(`+?`).  `opt` is the greedy `(?: ... )?`, `alt` the ordered `|`,
`group n` a capturing group, `dollar` the `$` anchor. -/
inductive RE where
  | eps
  | ch (c : CharCls)
  | seq (a b : RE)
  | alt (a b : RE)
  | opt (a : RE)
  | plus (c : CharCls) (lzy : Bool)
  | group (n : Nat) (a : RE)
  | dollar
deriving Repr, DecidableEq

/-- Captures: group index, captured characters, and the remainder of the
subject text immediately after the group (Python's `m.end(name)` slice). -/
abbrev Caps := List (Nat × List Char × List Char)

def oor (a b : Option Caps) : Option Caps :=
  match a with
  | some x => some x
  | none => b

/-- Backtracking loop for `c*` (the tail of `c+`): greedy tries to consume
first and falls back to the continuation; lazy tries the continuation
first.  On empty input both orders degenerate to the continuation. -/
def matchStar (c : CharCls) (lzy : Bool) (k : List Char → Caps → Option Caps) :
    List Char → Caps → Option Caps
  | [], caps => k [] caps
  | t :: ts, caps =>
    if lzy then
      oor (k (t :: ts) caps)
        (if clsMatch c t then matchStar c lzy k ts caps else none)
    else
      oor (if clsMatch c t then matchStar c lzy k ts caps else none)
        (k (t :: ts) caps)

/-- Backtracking matcher in continuation-passing style, mirroring the
Python `re` backtracking search order.  `k` receives the remaining text
and the captures accumulated so far. -/
def matchRE : RE → List Char → Caps → (List Char → Caps → Option Caps) → Option Caps
  | .eps, txt, caps, k => k txt caps
  | .ch c, txt, caps, k =>
    match txt with
    | [] => none
    | t :: ts => if clsMatch c t then k ts caps else none
  | .seq a b, txt, caps, k =>
    matchRE a txt caps (fun rest caps2 => matchRE b rest caps2 k)
  | .alt a b, txt, caps, k => oor (matchRE a txt caps k) (matchRE b txt caps k)
  | .opt a, txt, caps, k => oor (matchRE a txt caps k) (k txt caps)
  | .plus c lzy, txt, caps, k =>
    match txt with
    | [] => none
    | t :: ts => if clsMatch c t then matchStar c lzy k ts caps else none
  | .group n a, txt, caps, k =>
    matchRE a txt caps (fun rest caps2 =>
      k rest ((n, txt.take (txt.length - rest.length), rest) :: caps2))
  | .dollar, txt, caps, k =>
    if txt = [] || txt = ['\n'] then k txt caps else none

/-- `re.search`: try a match at every start position, leftmost first. -/
def reSearch (r : RE) : List Char → Option Caps
  | [] => matchRE r [] [] (fun _ caps => some caps)
  | t :: ts =>
    match matchRE r (t :: ts) [] (fun _ caps => some caps) with
    | some res => some res
    | none => reSearch r ts

/-- A case-insensitive literal string, as a sequence of single-char
atoms. -/
def litStr (s : List Char) : RE :=
  s.foldr (fun c r => .seq (.ch (.single c)) r) .eps

def gTo : Nat := 0
def gSubject : Nat := 1
def gBody : Nat := 2
def gMessageId : Nat := 0
def gQuery : Nat := 0

/-- `SEND_EMAIL_PATTERN` from `src/app.py`:
`send email to\\s+(?P<to>[^\\s]+)(?:\\s+subject\\s+(?P<subject>.+?))?`
`(?:\\s+(?:body|message)\\s+(?P<body>.+))?$` with IGNORECASE and DOTALL.
In the raw pattern string `\\s+` is an escaped backslash followed by
`s+`, and `[^\\s]` / `[\\w-]` are classes over the literal characters. -/
def SEND_EMAIL_PATTERN : RE :=
  .seq (litStr "send email to".toList)
  (.seq (.ch (.single '\\'))
  (.seq (.plus (.single 's') false)
  (.seq (.group gTo (.plus (.notIn ['\\', 's']) false))
  (.seq (.opt (.seq (.ch (.single '\\'))
              (.seq (.plus (.single 's') false)
              (.seq (litStr "subject".toList)
              (.seq (.ch (.single '\\'))
              (.seq (.plus (.single 's') false)
              (.group gSubject (.plus (.dot true) true))))))))
  (.seq (.opt (.seq (.ch (.single '\\'))
              (.seq (.plus (.single 's') false)
              (.seq (.alt (litStr "body".toList) (litStr "message".toList))
              (.seq (.ch (.single '\\'))
              (.seq (.plus (.single 's') false)
              (.group gBody (.plus (.dot true) false))))))))
  .dollar)))))

/-- `DELETE_EMAIL_PATTERN` from `src/app.py`:
`delete email\\s+(?P<message_id>[\\w-]+)` with IGNORECASE. -/
def DELETE_EMAIL_PATTERN : RE :=
  .seq (litStr "delete email".toList)
  (.seq (.ch (.single '\\'))
  (.seq (.plus (.single 's') false)
  (.group gMessageId (.plus (.inSet ['\\', 'w', '-']) false))))

/-- `LIST_EMAILS_PATTERN` from `src/app.py`:
`list emails(?:\\s+(?P<query>.+))?$` with IGNORECASE (no DOTALL). -/
def LIST_EMAILS_PATTERN : RE :=
  .seq (litStr "list emails".toList)
  (.seq (.opt (.seq (.ch (.single '\\'))
              (.seq (.plus (.single 's') false)
              (.group gQuery (.plus (.dot false) false)))))
  .dollar)

/-- Python `str.strip` whitespace set (ASCII part). -/
def pyIsSpace (c : Char) : Bool :=
  c == ' ' || c == '\t' || c == '\n' || c == '\r' || c == '\x0b' || c == '\x0c'

def pyStrip (s : List Char) : List Char :=
  ((s.dropWhile pyIsSpace).reverse.dropWhile pyIsSpace).reverse

def lowerList (s : List Char) : List Char := s.map Char.toLower

def capLookup (caps : Caps) (n : Nat) : Option (List Char × List Char) :=
  match caps with
  | [] => none
  | (m, c, r) :: rest => if m = n then some (c, r) else capLookup rest n

/-- The structured intents produced by `parse_chat_intent` (the `intent`
field of the returned dict, with its companion fields). -/
inductive Intent where
  | send_email (to_addr subject body : String)
  | delete_email (message_id : String)
  | list_emails (query : String)
deriving Repr, DecidableEq

/-- `parse_chat_intent` from `src/app.py`: try the send pattern, then the
delete pattern on the raw message, then the list pattern on the stripped
message.  For a send match, an absent body group falls back to the
remainder of the message after the `to` group, with a leading literal
`subject` keyword stripped. -/
def parse_chat_intent (message : String) : Option Intent :=
  let msg := message.toList
  match reSearch SEND_EMAIL_PATTERN msg with
  | some caps =>
    match capLookup caps gTo with
    | some (toCap, afterTo) =>
      let subject := ((capLookup caps gSubject).map (fun p => p.1)).getD []
      let body0 := ((capLookup caps gBody).map (fun p => p.1)).getD []
      let body :=
        if body0.isEmpty then
          let remainder := pyStrip afterTo
          if "subject".toList.isPrefixOf (lowerList remainder) then
            pyStrip (remainder.drop 7)
          else remainder
        else body0
      some (.send_email (String.mk (pyStrip toCap)) (String.mk (pyStrip subject))
            (String.mk (pyStrip body)))
    | none => none
  | none =>
  match reSearch DELETE_EMAIL_PATTERN msg with
  | some caps =>
    match capLookup caps gMessageId with
    | some (idCap, _) => some (.delete_email (String.mk (pyStrip idCap)))
    | none => none
  | none =>
  match reSearch LIST_EMAILS_PATTERN (pyStrip msg) with
  | some caps =>
    let q := ((capLookup caps gQuery).map (fun p => pyStrip p.1)).getD []
    some (.list_emails (String.mk q))
  | none => none

/-!
Embedding of `src/google_workspace_mcp.py`.

Python dict results are modelled as association lists in insertion order;
values are strings or lists of string-dicts (the `emails` array).  The
upstream Gmail API (reached only in interactive-OAuth mode) is modelled as
an oracle `GmailApi` whose operations either return a value or fail with
an `HttpError` detail string (the only exception type the code catches).
Each operation additionally returns the list of upstream API calls it
made, so "no outbound network call" is expressible as an empty call log.
-/

inductive RVal where
  | s (v : String)
  | emails (v : List (List (String × String)))
deriving Repr, DecidableEq

abbrev ActionResult := List (String × RVal)

def lookupKey (r : ActionResult) (k : String) : Option RVal :=
  (r.find? (fun p => p.1 == k)).map (fun p => p.2)

structure WorkspaceConfig where
  client_email : String
  private_key : String
  delegated_user : String
deriving Repr, DecidableEq

structure OAuthConfig where
  client_id : String
  client_secret : String
  token_file : String
deriving Repr, DecidableEq

/-- Metadata returned by the upstream `messages.get` call: the header list
of the message payload and its snippet. -/
structure MsgDetail where
  headers : List (String × String)
  snippet : String

/-- Oracle for the upstream Gmail API.  `Except.error d` models an
`HttpError` with message `d`; `sendResult`'s payload is the optional `id`
field of the send response (`result.get("id", "")`). -/
structure GmailApi where
  sendResult : String → String → String → Except String (Option String)
  deleteResult : String → Except String Unit
  listResult : String → Nat → Except String (List String)
  getResult : String → Except String MsgDetail

/-- Upstream calls made by an operation. -/
inductive Call where
  | sendMsg (to_addr subject body : String)
  | deleteMsg (id : String)
  | listMsgs (q : String) (maxResults : Nat)
  | getMsg (id : String)
deriving Repr, DecidableEq

/-- `GoogleWorkspaceMCP._has_credentials`: all three service-account
fields truthy (non-empty). -/
def has_credentials (cfg : WorkspaceConfig) : Bool :=
  cfg.client_email != "" && cfg.private_key != "" && cfg.delegated_user != ""

/-- `GoogleWorkspaceMCP._has_oauth_config`: both OAuth client id and
secret truthy (non-empty). -/
def has_oauth_config (oauth : OAuthConfig) : Bool :=
  oauth.client_id != "" && oauth.client_secret != ""

/-- `GoogleWorkspaceMCP._send_email_oauth`: a real send call; an
`HttpError` is caught and surfaced as an error result. -/
def send_email_oauth (api : GmailApi) (to_addr subject body : String) :
    ActionResult × List Call :=
  match api.sendResult to_addr subject body with
  | .ok mid =>
    ([("status", .s "sent"), ("message_id", .s (mid.getD ""))],
     [.sendMsg to_addr subject body])
  | .error d =>
    ([("status", .s "error"), ("message", .s "Gmail API error."), ("detail", .s d)],
     [.sendMsg to_addr subject body])

/-- `GoogleWorkspaceMCP._delete_email_oauth`. -/
def delete_email_oauth (api : GmailApi) (message_id : String) :
    ActionResult × List Call :=
  match api.deleteResult message_id with
  | .ok _ => ([("status", .s "deleted"), ("message_id", .s message_id)], [.deleteMsg message_id])
  | .error d =>
    ([("status", .s "error"), ("message", .s "Gmail API error."), ("detail", .s d)],
     [.deleteMsg message_id])

/-- Python dict comprehension `{h["name"]: h["value"] for h in headers}`
followed by `.get(name, "")`: the last pair with the given name wins. -/
def headersGet (hs : List (String × String)) (name : String) : String :=
  match hs.reverse.find? (fun h => h.1 == name) with
  | some h => h.2
  | none => ""

/-- The per-message `messages.get` loop of `_list_emails_oauth`; an
`HttpError` on any `get` aborts the loop and propagates. -/
def listLoop (api : GmailApi) :
    List String → Except String (List (List (String × String))) × List Call
  | [] => (.ok [], [])
  | mid :: rest =>
    match api.getResult mid with
    | .error d => (.error d, [.getMsg mid])
    | .ok detail =>
      let msg := [("id", mid), ("from", headersGet detail.headers "From"),
                  ("subject", headersGet detail.headers "Subject"),
                  ("snippet", detail.snippet)]
      let (r, calls) := listLoop api rest
      (r.map (fun l => msg :: l), .getMsg mid :: calls)

/-- `GoogleWorkspaceMCP._list_emails_oauth`: list up to 10 message ids,
fetch metadata for each; any `HttpError` yields the inline error shape
`{"emails": [], "error": "Gmail API error.", "detail": ...}`. -/
def list_emails_oauth (api : GmailApi) (query : Option String) :
    ActionResult × List Call :=
  let q := query.getD ""
  match api.listResult q 10 with
  | .error d =>
    ([("emails", .emails []), ("error", .s "Gmail API error."), ("detail", .s d)],
     [.listMsgs q 10])
  | .ok ids =>
    match listLoop api ids with
    | (.error d, calls) =>
      ([("emails", .emails []), ("error", .s "Gmail API error."), ("detail", .s d)],
       .listMsgs q 10 :: calls)
    | (.ok msgs, calls) =>
      ([("emails", .emails msgs), ("query", .s q)], .listMsgs q 10 :: calls)

/-- `GoogleWorkspaceMCP.send_email`: input validation, then OAuth mode,
then the no-credentials error, then the simulated queued success. -/
def send_email (cfg : WorkspaceConfig) (oauth : OAuthConfig) (api : GmailApi)
    (to_address subject body : String) : ActionResult × List Call :=
  if to_address = "" ∨ subject = "" ∨ body = "" then
    ([("status", .s "error"), ("message", .s "to, subject, and body are required.")], [])
  else if has_oauth_config oauth then
    send_email_oauth api to_address subject body
  else if !has_credentials cfg then
    ([("status", .s "error"),
      ("message", .s "Google Workspace credentials are not configured.")], [])
  else
    ([("status", .s "queued"), ("message", .s "Email queued for delivery."),
      ("to", .s to_address)], [])

/-- `GoogleWorkspaceMCP.delete_email`. -/
def delete_email (cfg : WorkspaceConfig) (oauth : OAuthConfig) (api : GmailApi)
    (message_id : String) : ActionResult × List Call :=
  if message_id = "" then
    ([("status", .s "error"), ("message", .s "message_id is required.")], [])
  else if has_oauth_config oauth then
    delete_email_oauth api message_id
  else if !has_credentials cfg then
    ([("status", .s "error"),
      ("message", .s "Google Workspace credentials are not configured.")], [])
  else
    ([("status", .s "deleted"), ("message_id", .s message_id)], [])

/-- `GoogleWorkspaceMCP.list_emails`. -/
def list_emails (cfg : WorkspaceConfig) (oauth : OAuthConfig) (api : GmailApi)
    (query : Option String) : ActionResult × List Call :=
  if has_oauth_config oauth then
    list_emails_oauth api query
  else if !has_credentials cfg then
    ([("emails", .emails []),
      ("warning", .s "Google Workspace credentials are not configured.")], [])
  else
    ([("emails", .emails [[("id", "sample-123"), ("from", "demo@example.com"),
        ("subject", "Welcome to Workspace MCP"),
        ("snippet", "Replace this with a real Gmail API call.")]]),
      ("query", .s (query.getD ""))], [])

/-!
Embedding of the chat-provider dispatcher `build_chat_response` from
`src/app.py`.  An `HTTPException` is modelled as `Except.error
(statusCode, detail)`; a successful dispatch returns the outbound call
that would be issued (`call_openai` / `call_gemini` with their
arguments), so "no outbound request is made" on the error paths is
expressed by the absence of a `ChatCall`.
-/

structure ChatConfig where
  openai_api_key : String
  openai_model : String
  gemini_api_key : String
  gemini_model : String
deriving Repr, DecidableEq

inductive ChatCall where
  | openai (api_key model message : String)
  | gemini (api_key model message : String)
deriving Repr, DecidableEq

/-- Python `str.lower()` (ASCII range, as in `Char.toLower`). -/
def pyLower (s : String) : String := String.mk (lowerList s.toList)

/-- `build_chat_response` from `src/app.py`. -/
def build_chat_response (provider message : String) (config : ChatConfig) :
    Except (Nat × String) ChatCall :=
  let p := pyLower provider
  if p = "gemini" then
    if config.gemini_api_key = "" then .error (400, "GEMINI_API_KEY is not set.")
    else if config.gemini_model = "" then .error (400, "GEMINI_MODEL is not set.")
    else .ok (.gemini config.gemini_api_key config.gemini_model message)
  else
    if config.openai_api_key = "" then .error (400, "OPENAI_API_KEY is not set.")
    else if config.openai_model = "" then .error (400, "OPENAI_MODEL is not set.")
    else .ok (.openai config.openai_api_key config.openai_model message)

/-- A Gmail oracle on which every upstream call succeeds trivially;
used to instantiate universally quantified theorems at concrete inputs. -/
def apiStub : GmailApi where
  sendResult := fun _ _ _ => .ok none
  deleteResult := fun _ => .ok ()
  listResult := fun _ _ => .ok []
  getResult := fun _ => .ok ⟨[], ""⟩

/-- A Gmail oracle on which every upstream call fails with an
`HttpError` whose message is `"boom"`. -/
def apiErr : GmailApi where
  sendResult := fun _ _ _ => .error "boom"
  deleteResult := fun _ => .error "boom"
  listResult := fun _ _ => .error "boom"
  getResult := fun _ => .error "boom"

/-- An outcome of `build_chat_response` belonging to the Gemini branch:
either the Gemini outbound call or an error naming a Gemini variable. -/
def isGeminiOutcome : Except (Nat × String) ChatCall → Bool
  | .ok (.gemini _ _ _) => true
  | .ok (.openai _ _ _) => false
  | .error (_, d) => d == "GEMINI_API_KEY is not set." || d == "GEMINI_MODEL is not set."

/-- An outcome of `build_chat_response` belonging to the OpenAI branch. -/
def isOpenAIOutcome : Except (Nat × String) ChatCall → Bool
  | .ok (.openai _ _ _) => true
  | .ok (.gemini _ _ _) => false
  | .error (_, d) => d == "OPENAI_API_KEY is not set." || d == "OPENAI_MODEL is not set."

/-! Helper lemmas about the matching engine. -/

theorem oor_eq_some {a b : Option Caps} {res : Caps} (h : oor a b = some res) :
    a = some res ∨ b = some res := by
  cases a with
  | none => exact Or.inr h
  | some x => exact Or.inl h

/-- Only an upper-case letter changes under `Char.toLower`, and those land
in the lower-case range, so only the backslash itself lower-cases to a
backslash. -/
theorem toLower_eq_bslash {t : Char} (h : t.toLower = '\\') : t = '\\' := by
  simp only [Char.toLower] at h
  split at h
  · exfalso
    rename_i hc
    have hvalid : (t.toNat + 32).isValidChar := Or.inl (by omega)
    have hv : (Char.ofNat (t.toNat + 32)).toNat = t.toNat + 32 := by
      rw [Char.ofNat, dif_pos hvalid]
      rfl
    have h92 : (Char.ofNat (t.toNat + 32)).toNat = 92 := by rw [h]; rfl
    omega
  · exact h

theorem clsMatch_single_bslash {t : Char} (h : clsMatch (.single '\\') t = true) :
    t = '\\' := by
  have hl : Char.toLower '\\' = '\\' := by decide
  simp only [clsMatch, hl, beq_iff_eq] at h
  exact toLower_eq_bslash h

/-- A successful `matchStar` hands the continuation a suffix of its
input. -/
theorem matchStar_suffix {c : CharCls} {lzy : Bool}
    {k : List Char → Caps → Option Caps} :
    ∀ {txt : List Char} {caps res : Caps},
      matchStar c lzy k txt caps = some res →
      ∃ rest caps2, rest.IsSuffix txt ∧ k rest caps2 = some res := by
  intro txt
  induction txt with
  | nil =>
    intro caps res h
    exact ⟨[], caps, List.suffix_refl _, h⟩
  | cons t ts ih =>
    intro caps res h
    simp only [matchStar] at h
    by_cases hl : lzy
    · rw [if_pos hl] at h
      rcases oor_eq_some h with h' | h'
      · exact ⟨t :: ts, caps, List.suffix_refl _, h'⟩
      · by_cases hc : clsMatch c t
        · rw [if_pos hc] at h'
          obtain ⟨rest, caps2, hs, hk⟩ := ih h'
          exact ⟨rest, caps2, hs.trans (List.suffix_cons t ts), hk⟩
        · rw [if_neg hc] at h'
          exact absurd h' (by simp)
    · rw [if_neg hl] at h
      rcases oor_eq_some h with h' | h'
      · by_cases hc : clsMatch c t
        · rw [if_pos hc] at h'
          obtain ⟨rest, caps2, hs, hk⟩ := ih h'
          exact ⟨rest, caps2, hs.trans (List.suffix_cons t ts), hk⟩
        · rw [if_neg hc] at h'
          exact absurd h' (by simp)
      · exact ⟨t :: ts, caps, List.suffix_refl _, h'⟩

/-- A successful `matchRE` hands the continuation a suffix of its
input. -/
theorem matchRE_suffix :
    ∀ {r : RE} {txt : List Char} {caps : Caps}
      {k : List Char → Caps → Option Caps} {res : Caps},
      matchRE r txt caps k = some res →
      ∃ rest caps2, rest.IsSuffix txt ∧ k rest caps2 = some res := by
  intro r
  induction r with
  | eps =>
    intro txt caps k res h
    exact ⟨txt, caps, List.suffix_refl _, h⟩
  | ch c =>
    intro txt caps k res h
    cases txt with
    | nil => exact absurd h (by simp [matchRE])
    | cons t ts =>
      simp only [matchRE] at h
      by_cases hc : clsMatch c t
      · rw [if_pos hc] at h
        exact ⟨ts, caps, List.suffix_cons t ts, h⟩
      · rw [if_neg hc] at h
        exact absurd h (by simp)
  | seq a b iha ihb =>
    intro txt caps k res h
    simp only [matchRE] at h
    obtain ⟨r1, c1, hs1, h1⟩ := iha h
    obtain ⟨r2, c2, hs2, h2⟩ := ihb h1
    exact ⟨r2, c2, hs2.trans hs1, h2⟩
  | alt a b iha ihb =>
    intro txt caps k res h
    simp only [matchRE] at h
    rcases oor_eq_some h with h' | h'
    · exact iha h'
    · exact ihb h'
  | opt a iha =>
    intro txt caps k res h
    simp only [matchRE] at h
    rcases oor_eq_some h with h' | h'
    · exact iha h'
    · exact ⟨txt, caps, List.suffix_refl _, h'⟩
  | plus c lzy =>
    intro txt caps k res h
    cases txt with
    | nil => exact absurd h (by simp [matchRE])
    | cons t ts =>
      simp only [matchRE] at h
      by_cases hc : clsMatch c t
      · rw [if_pos hc] at h
        obtain ⟨rest, caps2, hs, hk⟩ := matchStar_suffix h
        exact ⟨rest, caps2, hs.trans (List.suffix_cons t ts), hk⟩
      · rw [if_neg hc] at h
        exact absurd h (by simp)
  | group n a iha =>
    intro txt caps k res h
    simp only [matchRE] at h
    obtain ⟨r1, c1, hs1, h1⟩ := iha h
    exact ⟨r1, (n, txt.take (txt.length - r1.length), r1) :: c1, hs1, h1⟩
  | dollar =>
    intro txt caps k res h
    simp only [matchRE] at h
    split at h
    · exact ⟨txt, caps, List.suffix_refl _, h⟩
    · exact absurd h (by simp)

theorem matchRE_seq_some {a b : RE} {txt : List Char} {caps : Caps}
    {k : List Char → Caps → Option Caps} {res : Caps}
    (h : matchRE (.seq a b) txt caps k = some res) :
    ∃ rest caps2, rest.IsSuffix txt ∧ matchRE b rest caps2 k = some res := by
  have h' : matchRE a txt caps (fun rest caps2 => matchRE b rest caps2 k) = some res := h
  obtain ⟨r1, c1, hs, hk⟩ := matchRE_suffix h'
  exact ⟨r1, c1, hs, hk⟩

theorem matchRE_ch_some {c : CharCls} {txt : List Char} {caps : Caps}
    {k : List Char → Caps → Option Caps} {res : Caps}
    (h : matchRE (.ch c) txt caps k = some res) :
    ∃ t ts, txt = t :: ts ∧ clsMatch c t = true := by
  cases txt with
  | nil => exact absurd h (by simp [matchRE])
  | cons t ts =>
    by_cases hc : clsMatch c t
    · exact ⟨t, ts, rfl, hc⟩
    · have h' : (if clsMatch c t then k ts caps else none) = some res := h
      rw [if_neg hc] at h'
      exact absurd h' (by simp)

/-- Both the send and the delete pattern start with a literal followed by
an escaped backslash atom, so any text they match contains a literal
backslash. -/
theorem bslash_mem_of_match {L : List Char} {R : RE} {txt : List Char}
    {caps : Caps} {k : List Char → Caps → Option Caps} {res : Caps}
    (h : matchRE (.seq (litStr L) (.seq (.ch (.single '\\')) R)) txt caps k = some res) :
    '\\' ∈ txt := by
  obtain ⟨r1, c1, hs1, h1⟩ := matchRE_seq_some h
  have h1' : matchRE (.ch (.single '\\')) r1 c1
      (fun rest caps2 => matchRE R rest caps2 k) = some res := h1
  obtain ⟨t, ts, hr1, hc⟩ := matchRE_ch_some h1'
  have ht : t = '\\' := clsMatch_single_bslash hc
  have hmem : '\\' ∈ r1 := by
    rw [hr1, ← ht]
    exact List.mem_cons_self t ts
  exact hs1.subset hmem

theorem matchRE_send_bslash {txt : List Char} {caps : Caps}
    {k : List Char → Caps → Option Caps} {res : Caps}
    (h : matchRE SEND_EMAIL_PATTERN txt caps k = some res) : '\\' ∈ txt := by
  unfold SEND_EMAIL_PATTERN at h
  exact bslash_mem_of_match h

theorem matchRE_delete_bslash {txt : List Char} {caps : Caps}
    {k : List Char → Caps → Option Caps} {res : Caps}
    (h : matchRE DELETE_EMAIL_PATTERN txt caps k = some res) : '\\' ∈ txt := by
  unfold DELETE_EMAIL_PATTERN at h
  exact bslash_mem_of_match h

theorem reSearch_eq_none_of_no_bslash {r : RE}
    (hr : ∀ txt caps k res, matchRE r txt caps k = some res → '\\' ∈ txt) :
    ∀ {txt : List Char}, '\\' ∉ txt → reSearch r txt = none := by
  intro txt
  induction txt with
  | nil =>
    intro _
    cases hm : matchRE r [] [] (fun _ caps => some caps) with
    | none => exact hm
    | some res => exact absurd (hr _ _ _ _ hm) (by simp)
  | cons t ts ih =>
    intro hb
    cases hm : matchRE r (t :: ts) [] (fun _ caps => some caps) with
    | some res => exact absurd (hr _ _ _ _ hm) hb
    | none =>
      simp only [reSearch, hm]
      exact ih (fun hmem => hb (List.mem_cons_of_mem t hmem))

/-- `build_chat_response` in the Gemini branch. -/
theorem bcr_gemini_branch {p m : String} {cfg : ChatConfig}
    (hp : pyLower p = "gemini") :
    build_chat_response p m cfg =
      (if cfg.gemini_api_key = "" then .error (400, "GEMINI_API_KEY is not set.")
       else if cfg.gemini_model = "" then .error (400, "GEMINI_MODEL is not set.")
       else .ok (.gemini cfg.gemini_api_key cfg.gemini_model m)) := by
  simp [build_chat_response, hp]

/-- `build_chat_response` in the OpenAI (default) branch. -/
theorem bcr_openai_branch {p m : String} {cfg : ChatConfig}
    (hp : pyLower p ≠ "gemini") :
    build_chat_response p m cfg =
      (if cfg.openai_api_key = "" then .error (400, "OPENAI_API_KEY is not set.")
       else if cfg.openai_model = "" then .error (400, "OPENAI_MODEL is not set.")
       else .ok (.openai cfg.openai_api_key cfg.openai_model m)) := by
  simp [build_chat_response, hp]

/-! Claim theorems. -/

/-- Claim C1 (code bug): the documented message shape
`"send email to X subject Y body Z"` is NOT recognised by the code.  The
compiled send pattern requires a literal backslash (the pattern source is
a raw string containing `\\s+`), so `parse_chat_intent` returns no intent
on a canonical send-email message. -/
theorem send_email_message_parses_to_none :
    parse_chat_intent "send email to alice@example.com subject Hello body Hi there"
      = none := by
  decide

/-- Claim C8 (code bug): `parse_chat_intent "list emails from boss"`
returns no intent (the optional query clause of the list pattern requires
a literal backslash, and without it the `$` anchor fails), while
`parse_chat_intent "list emails"` does return a list intent with an empty
query. -/
theorem list_emails_intent_eval :
    parse_chat_intent "list emails from boss" = none ∧
    parse_chat_intent "list emails" = some (.list_emails "") := by
  decide

/-- Claim C10 (confirmed): the compiled send and delete patterns can only
match text containing a literal backslash, so every backslash-free
message yields either a `list_emails` intent or no intent at all. -/
theorem backslash_free_message_no_send_delete (message : String)
    (hb : '\\' ∉ message.toList) :
    parse_chat_intent message = none ∨
    ∃ q, parse_chat_intent message = some (.list_emails q) := by
  have hsend : reSearch SEND_EMAIL_PATTERN message.data = none :=
    reSearch_eq_none_of_no_bslash (fun _ _ _ _ h => matchRE_send_bslash h) hb
  have hdel : reSearch DELETE_EMAIL_PATTERN message.data = none :=
    reSearch_eq_none_of_no_bslash (fun _ _ _ _ h => matchRE_delete_bslash h) hb
  cases hls : reSearch LIST_EMAILS_PATTERN (pyStrip message.data) with
  | none =>
    left
    simp [parse_chat_intent, hsend, hdel, hls]
  | some caps =>
    right
    exact ⟨String.mk (((capLookup caps gQuery).map (fun p => pyStrip p.1)).getD []),
      by simp [parse_chat_intent, hsend, hdel, hls]⟩

/-- Witness for C10 at the concrete backslash-free message
`"hello there"`. -/
theorem backslash_free_message_no_send_delete_witness :
    parse_chat_intent "hello there" = none ∨
    ∃ q, parse_chat_intent "hello there" = some (.list_emails q) :=
  backslash_free_message_no_send_delete "hello there" (by decide)

/-- Claim C4 (confirmed): input validation precedes credential-mode
selection.  For every credential configuration and oracle, `send_email`
with an empty field and `delete_email` with an empty id return the fixed
validation errors, making no upstream call. -/
theorem validation_precedes_credential_mode (cfg : WorkspaceConfig)
    (oauth : OAuthConfig) (api : GmailApi) (to_addr subject body mid : String) :
    ((to_addr = "" ∨ subject = "" ∨ body = "") →
      send_email cfg oauth api to_addr subject body =
        ([("status", .s "error"),
          ("message", .s "to, subject, and body are required.")], []))
    ∧ (mid = "" →
      delete_email cfg oauth api mid =
        ([("status", .s "error"), ("message", .s "message_id is required.")], [])) := by
  constructor
  · intro h
    unfold send_email
    rw [if_pos h]
  · intro h
    unfold delete_email
    rw [if_pos h]

/-- Witness for C4 with an empty `to` field and an empty message id. -/
theorem validation_precedes_credential_mode_witness :
    send_email ⟨"", "", ""⟩ ⟨"", "", "token.json"⟩ apiStub "" "s" "b" =
      ([("status", .s "error"),
        ("message", .s "to, subject, and body are required.")], [])
    ∧ delete_email ⟨"", "", ""⟩ ⟨"", "", "token.json"⟩ apiStub "" =
      ([("status", .s "error"), ("message", .s "message_id is required.")], []) :=
  ⟨(validation_precedes_credential_mode _ _ apiStub "" "s" "b" "").1 (Or.inl rfl),
   (validation_precedes_credential_mode _ _ apiStub "" "s" "b" "").2 rfl⟩

/-- Claim C9 (confirmed): with all three service-account fields non-empty
and neither OAuth field set, `send_email "a@b.com" "s" "b"` returns the
fixed queued result for every oracle — the same value on every
invocation, with an empty upstream call log. -/
theorem service_account_send_email_queued (cfg : WorkspaceConfig)
    (oauth : OAuthConfig) (api : GmailApi)
    (h1 : cfg.client_email ≠ "") (h2 : cfg.private_key ≠ "")
    (h3 : cfg.delegated_user ≠ "")
    (h4 : oauth.client_id = "") (h5 : oauth.client_secret = "") :
    send_email cfg oauth api "a@b.com" "s" "b" =
      ([("status", .s "queued"), ("message", .s "Email queued for delivery."),
        ("to", .s "a@b.com")], []) := by
  have hoa : has_oauth_config oauth = false := by simp [has_oauth_config, h4, h5]
  have hcr : has_credentials cfg = true := by simp [has_credentials, h1, h2, h3]
  simp [send_email, hoa, hcr]

/-- Witness for C9 at concrete service-account credentials. -/
theorem service_account_send_email_queued_witness :
    send_email ⟨"ce", "pk", "du"⟩ ⟨"", "", "token.json"⟩ apiStub "a@b.com" "s" "b" =
      ([("status", .s "queued"), ("message", .s "Email queued for delivery."),
        ("to", .s "a@b.com")], []) :=
  service_account_send_email_queued _ _ apiStub (by decide) (by decide) (by decide)
    rfl rfl

/-- Claim C6 (confirmed): `build_chat_response` selects the Gemini branch
exactly when the lower-cased provider equals `"gemini"` (anything else
selects the OpenAI branch); any outbound call it produces has a non-empty
API key and model; and with provider `"GEMINI"` and an empty Gemini API
key it fails with the 400 error naming `GEMINI_API_KEY`, producing no
outbound call. -/
theorem build_chat_response_provider_selection (p m : String) (cfg : ChatConfig) :
    (isGeminiOutcome (build_chat_response p m cfg) = true ↔ pyLower p = "gemini")
    ∧ (isOpenAIOutcome (build_chat_response p m cfg) = true ↔ pyLower p ≠ "gemini")
    ∧ (∀ key mo msg, build_chat_response p m cfg = .ok (.gemini key mo msg) →
        key ≠ "" ∧ mo ≠ "")
    ∧ (∀ key mo msg, build_chat_response p m cfg = .ok (.openai key mo msg) →
        key ≠ "" ∧ mo ≠ "")
    ∧ (cfg.gemini_api_key = "" →
        build_chat_response "GEMINI" m cfg = .error (400, "GEMINI_API_KEY is not set.")) := by
  refine ⟨?_, ?_, ?_, ?_, ?_⟩
  · constructor
    · intro hout
      by_contra hp
      rw [bcr_openai_branch hp] at hout
      by_cases h1 : cfg.openai_api_key = ""
      · rw [if_pos h1] at hout
        simp [isGeminiOutcome] at hout
      · rw [if_neg h1] at hout
        by_cases h2 : cfg.openai_model = ""
        · rw [if_pos h2] at hout
          simp [isGeminiOutcome] at hout
        · rw [if_neg h2] at hout
          simp [isGeminiOutcome] at hout
    · intro hp
      rw [bcr_gemini_branch hp]
      by_cases h1 : cfg.gemini_api_key = ""
      · simp [h1, isGeminiOutcome]
      · by_cases h2 : cfg.gemini_model = ""
        · simp [h1, h2, isGeminiOutcome]
        · simp [h1, h2, isGeminiOutcome]
  · constructor
    · intro hout hp
      rw [bcr_gemini_branch hp] at hout
      by_cases h1 : cfg.gemini_api_key = ""
      · rw [if_pos h1] at hout
        simp [isOpenAIOutcome] at hout
      · rw [if_neg h1] at hout
        by_cases h2 : cfg.gemini_model = ""
        · rw [if_pos h2] at hout
          simp [isOpenAIOutcome] at hout
        · rw [if_neg h2] at hout
          simp [isOpenAIOutcome] at hout
    · intro hp
      rw [bcr_openai_branch hp]
      by_cases h1 : cfg.openai_api_key = ""
      · simp [h1, isOpenAIOutcome]
      · by_cases h2 : cfg.openai_model = ""
        · simp [h1, h2, isOpenAIOutcome]
        · simp [h1, h2, isOpenAIOutcome]
  · intro key mo msg hok
    by_cases hp : pyLower p = "gemini"
    · rw [bcr_gemini_branch hp] at hok
      by_cases h1 : cfg.gemini_api_key = ""
      · rw [if_pos h1] at hok
        simp at hok
      · rw [if_neg h1] at hok
        by_cases h2 : cfg.gemini_model = ""
        · rw [if_pos h2] at hok
          simp at hok
        · rw [if_neg h2] at hok
          simp only [Except.ok.injEq, ChatCall.gemini.injEq] at hok
          obtain ⟨hk, hmo, -⟩ := hok
          subst hk
          subst hmo
          exact ⟨h1, h2⟩
    · rw [bcr_openai_branch hp] at hok
      by_cases h1 : cfg.openai_api_key = ""
      · rw [if_pos h1] at hok
        simp at hok
      · rw [if_neg h1] at hok
        by_cases h2 : cfg.openai_model = ""
        · rw [if_pos h2] at hok
          simp at hok
        · rw [if_neg h2] at hok
          simp at hok
  · intro key mo msg hok
    by_cases hp : pyLower p = "gemini"
    · rw [bcr_gemini_branch hp] at hok
      by_cases h1 : cfg.gemini_api_key = ""
      · rw [if_pos h1] at hok
        simp at hok
      · rw [if_neg h1] at hok
        by_cases h2 : cfg.gemini_model = ""
        · rw [if_pos h2] at hok
          simp at hok
        · rw [if_neg h2] at hok
          simp at hok
    · rw [bcr_openai_branch hp] at hok
      by_cases h1 : cfg.openai_api_key = ""
      · rw [if_pos h1] at hok
        simp at hok
      · rw [if_neg h1] at hok
        by_cases h2 : cfg.openai_model = ""
        · rw [if_pos h2] at hok
          simp at hok
        · rw [if_neg h2] at hok
          simp only [Except.ok.injEq, ChatCall.openai.injEq] at hok
          obtain ⟨hk, hmo, -⟩ := hok
          subst hk
          subst hmo
          exact ⟨h1, h2⟩
  · intro h1
    have hp : pyLower "GEMINI" = "gemini" := by decide
    rw [bcr_gemini_branch hp, if_pos h1]

/-- Witness for C6: provider `"GEMINI"` with a fully empty chat
configuration fails naming `GEMINI_API_KEY`. -/
theorem build_chat_response_provider_selection_witness :
    build_chat_response "GEMINI" "hi" ⟨"", "", "", ""⟩ =
      .error (400, "GEMINI_API_KEY is not set.") :=
  (build_chat_response_provider_selection "GEMINI" "hi" ⟨"", "", "", ""⟩).2.2.2.2 rfl

/-- Claim C3 (counterexample): with no credentials configured at all,
`list_emails` returns an EMPTY `emails` array together with the warning —
not a one-entry sample list as claimed. -/
theorem no_credentials_list_empty_cex :
    (list_emails ⟨"", "", ""⟩ ⟨"", "", "token.json"⟩ apiStub none).1 =
      [("emails", .emails []),
       ("warning", .s "Google Workspace credentials are not configured.")] := by
  decide

/-- Claim C3 (amended): with neither credential mode available,
`list_emails` returns an empty `emails` array plus the warning, and
`send_email` / `delete_email` (with valid inputs) return the
not-configured error. -/
theorem no_credentials_modes_amended (cfg : WorkspaceConfig) (oauth : OAuthConfig)
    (api : GmailApi) (q : Option String) (to_addr subject body mid : String)
    (hoa : has_oauth_config oauth = false) (hcr : has_credentials cfg = false)
    (ht : to_addr ≠ "") (hs : subject ≠ "") (hb : body ≠ "") (hm : mid ≠ "") :
    list_emails cfg oauth api q =
      ([("emails", .emails []),
        ("warning", .s "Google Workspace credentials are not configured.")], [])
    ∧ send_email cfg oauth api to_addr subject body =
      ([("status", .s "error"),
        ("message", .s "Google Workspace credentials are not configured.")], [])
    ∧ delete_email cfg oauth api mid =
      ([("status", .s "error"),
        ("message", .s "Google Workspace credentials are not configured.")], []) := by
  refine ⟨?_, ?_, ?_⟩
  · simp [list_emails, hoa, hcr]
  · simp [send_email, ht, hs, hb, hoa, hcr]
  · simp [delete_email, hm, hoa, hcr]

/-- Witness for the amended C3 at a fully empty credential state. -/
theorem no_credentials_modes_amended_witness :
    list_emails ⟨"", "", ""⟩ ⟨"", "", "token.json"⟩ apiStub none =
      ([("emails", .emails []),
        ("warning", .s "Google Workspace credentials are not configured.")], [])
    ∧ send_email ⟨"", "", ""⟩ ⟨"", "", "token.json"⟩ apiStub "a@b.com" "s" "b" =
      ([("status", .s "error"),
        ("message", .s "Google Workspace credentials are not configured.")], [])
    ∧ delete_email ⟨"", "", ""⟩ ⟨"", "", "token.json"⟩ apiStub "mid1" =
      ([("status", .s "error"),
        ("message", .s "Google Workspace credentials are not configured.")], []) :=
  no_credentials_modes_amended _ _ apiStub none "a@b.com" "s" "b" "mid1"
    rfl rfl (by decide) (by decide) (by decide) (by decide)

/-- Claim C5 (counterexample): with exactly one OAuth field set
(client id only) and all three service-account fields non-empty,
`send_email` returns the simulated queued success, not the claimed
not-configured error. -/
theorem single_oauth_field_simulated_send_cex :
    (send_email ⟨"ce", "pk", "du"⟩ ⟨"cid", "", "token.json"⟩ apiStub
        "a@b.com" "s" "b").1 =
      [("status", .s "queued"), ("message", .s "Email queued for delivery."),
       ("to", .s "a@b.com")] := by
  decide

/-- Claim C5 (amended): the interactive-OAuth mode requires BOTH OAuth
fields; with exactly one OAuth field set and all service-account fields
non-empty, the executor falls through to the service-account mode and
returns simulated successes (`queued` / `deleted`), not an error. -/
theorem credential_mode_fallthrough_amended (cfg : WorkspaceConfig)
    (oauth : OAuthConfig) (api : GmailApi) (to_addr subject body mid : String)
    (hone : (oauth.client_id = "" ∧ oauth.client_secret ≠ "") ∨
            (oauth.client_id ≠ "" ∧ oauth.client_secret = ""))
    (hcr : has_credentials cfg = true)
    (ht : to_addr ≠ "") (hs : subject ≠ "") (hb : body ≠ "") (hm : mid ≠ "") :
    (send_email cfg oauth api to_addr subject body).1 =
      [("status", .s "queued"), ("message", .s "Email queued for delivery."),
       ("to", .s to_addr)]
    ∧ (delete_email cfg oauth api mid).1 =
      [("status", .s "deleted"), ("message_id", .s mid)] := by
  have hoa : has_oauth_config oauth = false := by
    rcases hone with ⟨h1, -⟩ | ⟨-, h2⟩
    · simp [has_oauth_config, h1]
    · simp [has_oauth_config, h2]
  constructor
  · simp [send_email, ht, hs, hb, hoa, hcr]
  · simp [delete_email, hm, hoa, hcr]

/-- Witness for the amended C5 with only the OAuth client secret set. -/
theorem credential_mode_fallthrough_amended_witness :
    (send_email ⟨"ce", "pk", "du"⟩ ⟨"", "sec", "token.json"⟩ apiStub
        "a@b.com" "s" "b").1 =
      [("status", .s "queued"), ("message", .s "Email queued for delivery."),
       ("to", .s "a@b.com")]
    ∧ (delete_email ⟨"ce", "pk", "du"⟩ ⟨"", "sec", "token.json"⟩ apiStub "mid1").1 =
      [("status", .s "deleted"), ("message_id", .s "mid1")] :=
  credential_mode_fallthrough_amended _ _ apiStub "a@b.com" "s" "b" "mid1"
    (Or.inl ⟨rfl, by decide⟩) (by decide) (by decide) (by decide) (by decide)
    (by decide)

/-- Claim C2 (counterexample): a `list_emails` result carries no
`"status"` key at all (here in no-credential mode), so not every executor
result contains a `status` field. -/
theorem list_result_lacks_status_cex :
    lookupKey (list_emails ⟨"", "", ""⟩ ⟨"", "", "token.json"⟩ apiStub none).1
      "status" = none := by
  decide

/-- Claim C2 (amended): every `send_email` / `delete_email` result has a
`status` key valued in `queued|sent|deleted|error`, but `list_emails`
results never carry a `status` key — they carry an `emails` key
instead. -/
theorem workspace_results_status_amended (cfg : WorkspaceConfig)
    (oauth : OAuthConfig) (api : GmailApi)
    (to_addr subject body mid : String) (q : Option String) :
    (∃ v, lookupKey (send_email cfg oauth api to_addr subject body).1 "status"
        = some (.s v) ∧ (v = "queued" ∨ v = "sent" ∨ v = "error"))
    ∧ (∃ v, lookupKey (delete_email cfg oauth api mid).1 "status"
        = some (.s v) ∧ (v = "deleted" ∨ v = "error"))
    ∧ lookupKey (list_emails cfg oauth api q).1 "status" = none
    ∧ (∃ es, lookupKey (list_emails cfg oauth api q).1 "emails"
        = some (.emails es)) := by
  refine ⟨?_, ?_, ?_, ?_⟩
  · unfold send_email
    split
    · exact ⟨"error", rfl, Or.inr (Or.inr rfl)⟩
    · split
      · cases hr : api.sendResult to_addr subject body with
        | ok mid2 =>
          exact ⟨"sent", by simp [send_email_oauth, hr, lookupKey],
            Or.inr (Or.inl rfl)⟩
        | error d =>
          exact ⟨"error", by simp [send_email_oauth, hr, lookupKey],
            Or.inr (Or.inr rfl)⟩
      · split
        · exact ⟨"error", rfl, Or.inr (Or.inr rfl)⟩
        · exact ⟨"queued", rfl, Or.inl rfl⟩
  · unfold delete_email
    split
    · exact ⟨"error", rfl, Or.inr rfl⟩
    · split
      · cases hr : api.deleteResult mid with
        | ok u =>
          exact ⟨"deleted", by simp [delete_email_oauth, hr, lookupKey], Or.inl rfl⟩
        | error d =>
          exact ⟨"error", by simp [delete_email_oauth, hr, lookupKey], Or.inr rfl⟩
      · split
        · exact ⟨"error", rfl, Or.inr rfl⟩
        · exact ⟨"deleted", rfl, Or.inl rfl⟩
  · unfold list_emails
    split
    · simp only [list_emails_oauth]
      cases hr : api.listResult (q.getD "") 10 with
      | error d => simp [lookupKey]
      | ok ids =>
        rcases hll : listLoop api ids with ⟨er | msgs, calls⟩
        · simp [hll, lookupKey]
        · simp [hll, lookupKey]
    · split
      · rfl
      · rfl
  · unfold list_emails
    split
    · simp only [list_emails_oauth]
      cases hr : api.listResult (q.getD "") 10 with
      | error d => exact ⟨[], by simp [lookupKey]⟩
      | ok ids =>
        rcases hll : listLoop api ids with ⟨er | msgs, calls⟩
        · exact ⟨[], by simp [hll, lookupKey]⟩
        · exact ⟨msgs, by simp [hll, lookupKey]⟩
    · split
      · exact ⟨[], rfl⟩
      · exact ⟨[[("id", "sample-123"), ("from", "demo@example.com"),
          ("subject", "Welcome to Workspace MCP"),
          ("snippet", "Replace this with a real Gmail API call.")]], rfl⟩

/-- Claim C7 (counterexample): in interactive-OAuth mode an upstream
error in `list_emails` is surfaced as
`{"emails": [], "error": "Gmail API error.", "detail": ...}` — a result
with no `status` key, not the claimed
`{status: "error", message: "Gmail API error.", detail: ...}` shape. -/
theorem oauth_list_error_shape_cex :
    (list_emails ⟨"", "", ""⟩ ⟨"cid", "sec", "token.json"⟩ apiErr (some "q")).1 =
      [("emails", .emails []), ("error", .s "Gmail API error."),
       ("detail", .s "boom")]
    ∧ lookupKey
        (list_emails ⟨"", "", ""⟩ ⟨"cid", "sec", "token.json"⟩ apiErr (some "q")).1
        "status" = none := by
  decide

/-- Claim C7 (amended): in interactive-OAuth mode, upstream errors in
`send_email` and `delete_email` surface as
`{status: "error", message: "Gmail API error.", detail}`, while upstream
errors in `list_emails` (from the list call or from a per-message get)
surface as `{emails: [], error: "Gmail API error.", detail}`; no
operation raises. -/
theorem oauth_upstream_error_surfacing_amended (cfg : WorkspaceConfig)
    (oauth : OAuthConfig) (api : GmailApi) (to_addr subject body mid : String)
    (q : Option String) (d : String)
    (hoa : has_oauth_config oauth = true) :
    (to_addr ≠ "" → subject ≠ "" → body ≠ "" →
      api.sendResult to_addr subject body = .error d →
      (send_email cfg oauth api to_addr subject body).1 =
        [("status", .s "error"), ("message", .s "Gmail API error."),
         ("detail", .s d)])
    ∧ (mid ≠ "" → api.deleteResult mid = .error d →
      (delete_email cfg oauth api mid).1 =
        [("status", .s "error"), ("message", .s "Gmail API error."),
         ("detail", .s d)])
    ∧ (api.listResult (q.getD "") 10 = .error d →
      (list_emails cfg oauth api q).1 =
        [("emails", .emails []), ("error", .s "Gmail API error."),
         ("detail", .s d)])
    ∧ (api.listResult (q.getD "") 10 = .ok [mid] →
      api.getResult mid = .error d →
      (list_emails cfg oauth api q).1 =
        [("emails", .emails []), ("error", .s "Gmail API error."),
         ("detail", .s d)]) := by
  refine ⟨?_, ?_, ?_, ?_⟩
  · intro ht hs hb hr
    simp [send_email, ht, hs, hb, hoa, send_email_oauth, hr]
  · intro hm hr
    simp [delete_email, hm, hoa, delete_email_oauth, hr]
  · intro hr
    simp [list_emails, hoa, list_emails_oauth, hr]
  · intro hr hg
    simp [list_emails, hoa, list_emails_oauth, hr, listLoop, hg]

/-- Witness for the amended C7, with every upstream call failing with
detail `"boom"`. -/
theorem oauth_upstream_error_surfacing_amended_witness :
    (send_email ⟨"", "", ""⟩ ⟨"cid", "sec", "token.json"⟩ apiErr "a@b.com" "s" "b").1 =
      [("status", .s "error"), ("message", .s "Gmail API error."),
       ("detail", .s "boom")]
    ∧ (delete_email ⟨"", "", ""⟩ ⟨"cid", "sec", "token.json"⟩ apiErr "mid1").1 =
      [("status", .s "error"), ("message", .s "Gmail API error."),
       ("detail", .s "boom")] :=
  ⟨(oauth_upstream_error_surfacing_amended ⟨"", "", ""⟩ ⟨"cid", "sec", "token.json"⟩
      apiErr "a@b.com" "s" "b" "mid1" none "boom" (by decide)).1
      (by decide) (by decide) (by decide) rfl,
   (oauth_upstream_error_surfacing_amended ⟨"", "", ""⟩ ⟨"cid", "sec", "token.json"⟩
      apiErr "a@b.com" "s" "b" "mid1" none "boom" (by decide)).2.1 (by decide) rfl⟩

end Chatbot
